import Mathlib

/-!
Verification of the session-scoped search, history and analytics subsystem of the
"Búsqueda y Descubrimiento" microservice (Express + Mongoose, TypeScript).

Strings from the source are modelled as `List Char` (`Str`), timestamps (JS
`Date.now()` / `Date` values, milliseconds) as `Int`, and the Mongo collections
(`search_history`, `search_queries`, `clicks`) as Lean lists of records.  Store
and upstream failures ("store unreachable", thrown promises) are modelled by
explicit Boolean failure flags / `Except` values threaded through the embedded
controllers, mirroring the `try/catch` structure of the TypeScript code.
-/

/-- Strings of the TypeScript source, modelled as lists of characters. -/
abbrev Str := List Char

/-! ## sessionService.ts : in-memory anonymous-session registry -/

/-- `SessionInfo` from `src/services/sessionService.ts`. -/
structure SessionInfo where
  sessionId : Str
  createdAt : Int
  lastActivity : Int
deriving DecidableEq

/-- The in-memory map `activeSessions : Map<string, SessionInfo>`, modelled as an
association list in insertion order (`Map.set` appends new keys at the end). -/
abbrev SessionRegistry := List (Str × SessionInfo)

/-- `SESSION_TIMEOUT = 12 * 60 * 60 * 1000` (12 hours, in ms). -/
def SESSION_TIMEOUT : Int := 12 * 60 * 60 * 1000

/-- `CLEANUP_INTERVAL = 5 * 60 * 1000` (5 minutes, in ms). -/
def CLEANUP_INTERVAL : Int := 5 * 60 * 1000

/-- `activeSessions.get(sessionId)` (also covers `has`, which is `isSome` of this). -/
def lookupSession : SessionRegistry → Str → Option SessionInfo
  | [], _ => none
  | (k, v) :: rest, sid => if k = sid then some v else lookupSession rest sid

/-- `SessionService.registerSession`: refresh `lastActivity` of an existing entry,
or insert a fresh entry whose `createdAt` and `lastActivity` are both `now`. -/
def registerSession (sid : Str) (now : Int) (reg : SessionRegistry) : SessionRegistry :=
  if (lookupSession reg sid).isSome then
    reg.map fun p => if p.1 = sid then (p.1, { p.2 with lastActivity := now }) else p
  else
    reg ++ [(sid, ⟨sid, now, now⟩)]

/-- `SessionService.isSessionActive`: the session exists and
`Date.now() - lastActivity < SESSION_TIMEOUT`. -/
def isSessionActive (reg : SessionRegistry) (now : Int) (sid : Str) : Bool :=
  match lookupSession reg sid with
  | none => false
  | some s => decide (now - s.lastActivity < SESSION_TIMEOUT)

/-- The scan phase of `SessionService.cleanupExpiredSessions`: the session ids
collected into `expiredSessions` (those with `now - lastActivity >= SESSION_TIMEOUT`). -/
def collectExpiredSessions (reg : SessionRegistry) (now : Int) : List Str :=
  (reg.filter fun p => decide (SESSION_TIMEOUT ≤ now - p.2.lastActivity)).map Prod.fst

/-- The literal `'anonymous_'` marker used by the session service. -/
def anonMarker : Str := "anonymous_".toList

/-- `SessionService.getAnonymousUserId`: `` `anonymous_${sessionId}` ``. -/
def getAnonymousUserId (sid : Str) : Str := anonMarker ++ sid

/-- `SessionService.isAnonymousUserId`: `userId.startsWith('anonymous_')`. -/
def isAnonymousUserId (userId : Str) : Bool := anonMarker.isPrefixOf userId

/-- JavaScript `String.prototype.replace` with a non-empty string pattern and empty
replacement: removes the first occurrence of `pat`, if any. -/
def replaceFirst : Str → Str → Str
  | [], _ => []
  | c :: rest, pat =>
    if pat.isPrefixOf (c :: rest) then (c :: rest).drop pat.length
    else c :: replaceFirst rest pat

/-- `SessionService.extractSessionId`: `null` unless the id starts with
`'anonymous_'`, else `userId.replace('anonymous_', '')`. -/
def extractSessionId (userId : Str) : Option Str :=
  if isAnonymousUserId userId then some (replaceFirst userId anonMarker) else none

/-! ## Durable record streams (models/Search.ts, models/Click.ts) -/

/-- A `search_history` document (`SearchHistorySchema`).  The `filters`, `sortBy`,
`sortDir`, `page` and `pageSize` fields play no role in any claim and are omitted;
`id` stands for the Mongo `_id`. -/
structure SearchHistoryRecord where
  id : Str
  userId : Str
  queryText : Str
  requestedAt : Int
  results : List Str
deriving DecidableEq

/-- A `search_queries` document (`SearchQuerySchema`): owner-less analytics record. -/
structure SearchQueryRecord where
  valor_busqueda : Str
  fecha : Int
deriving DecidableEq

/-- A `clicks` document (`ClickSchema`); `userId` is optional. -/
structure ClickRecord where
  id_producto : Str
  nombre : Str
  fecha : Int
  userId : Option Str
deriving DecidableEq

/-- Combined persistent and in-memory state touched by the session cascade. -/
structure SysState where
  history : List SearchHistoryRecord
  clicks : List ClickRecord
  sessions : SessionRegistry
deriving DecidableEq

/-- The `try` block of `SessionService.cleanupSessionHistory`:
`SearchHistory.deleteMany({userId: anonymous_sid})`, then
`Click.deleteMany({userId: anonymous_sid})`, then `activeSessions.delete(sessionId)`.
A `Bool` flag per store models "store unreachable" (the awaited promise rejects);
on a throw the `error` value carries the state reached so far, as the later
statements do not run. -/
def cleanupSessionHistoryBody (sid : Str) (histFail clickFail : Bool) (st : SysState) :
    Except SysState SysState :=
  if histFail then Except.error st
  else
    let st1 : SysState :=
      { st with history := st.history.filter fun r => decide (r.userId ≠ getAnonymousUserId sid) }
    if clickFail then Except.error st1
    else
      let st2 : SysState :=
        { st1 with clicks := st1.clicks.filter fun c => decide (c.userId ≠ some (getAnonymousUserId sid)) }
      Except.ok { st2 with sessions := st2.sessions.filter fun p => decide (p.1 ≠ sid) }

/-- `SessionService.cleanupSessionHistory`: the whole body is wrapped in
`try { ... } catch (error) { console.error(...) }`, so a thrown error is swallowed
and the state reached at the throw point is kept. -/
def cleanupSessionHistory (sid : Str) (histFail clickFail : Bool) (st : SysState) : SysState :=
  match cleanupSessionHistoryBody sid histFail clickFail st with
  | Except.ok s => s
  | Except.error s => s

/-- `SessionService.cleanupExpiredSessions`: scan for expired sessions, then run the
cascade for each collected id (`fail` gives the two store-failure flags per id). -/
def cleanupExpiredSessions (now : Int) (fail : Str → Bool × Bool) (st : SysState) : SysState :=
  (collectExpiredSessions st.sessions now).foldl
    (fun acc sid => cleanupSessionHistory sid (fail sid).1 (fail sid).2 acc) st

/-! ## productsService.ts : CatalogFilterEngine -/

/-- `ProductoNormalizado` from `src/services/productsService.ts`.  The `multimedia`
and derived `imagen` fields are never read by the filter pipeline or any claim and
are omitted. -/
structure ProductoNormalizado where
  id : Str
  id_producto : Str
  titulo : Str
  descripcion : Str
  precio : Int
  categoria : Str
  condicion : Str
  stock : Int
  marca : Str
deriving DecidableEq

/-- The `ordenar` values accepted by `FilterOptions`. -/
inductive Ordenar where
  | precioAsc
  | precioDesc
deriving DecidableEq

/-- `FilterOptions` from `productsService.ts` (defaults `page = 1`, `pageSize = 20`
are supplied by `defaultFilterOptions`). -/
structure FilterOptions where
  busqueda : Str
  precio_min : Option Int
  precio_max : Option Int
  categoria : Option Str
  condicion : Option Str
  ordenar : Option Ordenar
  page : Nat
  pageSize : Nat
deriving DecidableEq

/-- The destructuring defaults of `searchAndFilterProducts({})`:
`busqueda = ''`, `page = 1`, `pageSize = 20`, everything else absent. -/
def defaultFilterOptions : FilterOptions := ⟨[], none, none, none, none, none, 1, 20⟩

/-- Pagination metadata of `PaginatedResponse`. -/
structure Metadata where
  total : Nat
  page : Nat
  pageSize : Nat
  totalPages : Nat
  hasMore : Bool
deriving DecidableEq

/-- `PaginatedResponse` from `productsService.ts`. -/
structure PaginatedResponse where
  productos : List ProductoNormalizado
  metadata : Metadata
deriving DecidableEq

/-- JavaScript `String.prototype.trim`: strip whitespace from both ends. -/
def trimStr (s : Str) : Str :=
  ((s.dropWhile Char.isWhitespace).reverse.dropWhile Char.isWhitespace).reverse

/-- Character-wise `String.prototype.toLowerCase`. -/
def lowerStr (s : Str) : Str := s.map Char.toLower

/-- JavaScript `String.prototype.includes`: substring containment. -/
def containsSubstr (s sub : Str) : Bool :=
  (List.range (s.length + 1)).any fun i => sub.isPrefixOf (s.drop i)

/-- Step 2 of `searchAndFilterProducts`: text filter over `titulo`, `descripcion`
and `marca`, case-insensitive, skipped when `busqueda` is blank. -/
def applyBusqueda (busqueda : Str) (ps : List ProductoNormalizado) :
    List ProductoNormalizado :=
  if (trimStr busqueda).isEmpty then ps
  else
    let searchLower := trimStr (lowerStr busqueda)
    ps.filter fun p =>
      containsSubstr (lowerStr p.titulo) searchLower
        || containsSubstr (lowerStr p.descripcion) searchLower
        || containsSubstr (lowerStr p.marca) searchLower

/-- Steps 2-5 of `ProductsService.searchAndFilterProducts`: text filter, price
bounds, category and condition (case-insensitive equality), then the optional
price sort (`Array.prototype.sort` is stable, modelled by the stable
`insertionSort`). -/
def filterAndSortProducts (todos : List ProductoNormalizado) (f : FilterOptions) :
    List ProductoNormalizado :=
  let fil1 := applyBusqueda f.busqueda todos
  let fil2 := match f.precio_min with
    | some m => fil1.filter fun p => decide (m ≤ p.precio)
    | none => fil1
  let fil3 := match f.precio_max with
    | some m => fil2.filter fun p => decide (p.precio ≤ m)
    | none => fil2
  let fil4 := match f.categoria with
    | some c => fil3.filter fun p => decide (lowerStr p.categoria = lowerStr c)
    | none => fil3
  let fil5 := match f.condicion with
    | some c => fil4.filter fun p => decide (lowerStr p.condicion = lowerStr c)
    | none => fil4
  match f.ordenar with
  | some Ordenar.precioAsc => fil5.insertionSort fun a b => a.precio ≤ b.precio
  | some Ordenar.precioDesc => fil5.insertionSort fun a b => b.precio ≤ a.precio
  | none => fil5

/-- Step 6 of `ProductsService.searchAndFilterProducts`: pagination over the
filtered list.  `totalPages = Math.ceil(total / pageSize)` on natural inputs is
`(total + pageSize - 1) / pageSize`; `slice(startIndex, startIndex + pageSize)` is
`drop`-then-`take`.  The product collection fetched from the publications API is
passed in as `todos` (claims assume the upstream fetch succeeded). -/
def searchAndFilterProducts (todos : List ProductoNormalizado) (f : FilterOptions) :
    PaginatedResponse :=
  let productosFiltrados := filterAndSortProducts todos f
  let total := productosFiltrados.length
  let totalPages := (total + f.pageSize - 1) / f.pageSize
  let startIndex := (f.page - 1) * f.pageSize
  ⟨(productosFiltrados.drop startIndex).take f.pageSize,
    ⟨total, f.page, f.pageSize, totalPages, decide (f.page < totalPages)⟩⟩

/-! ## searchController.ts : GET /api/search/products -/

/-- The request data reaching the `search` controller after the validation
middleware: sanitized query fields plus the identity attached by
`optionalAuthenticate` (`req.userId`, `req.isAnonymous`, `req.sessionId`). -/
structure SearchRequest where
  busqueda : Str
  precio : Option Str
  categoria : Option Str
  condicion : Option Str
  ordenar : Option Ordenar
  pageNum : Nat
  pageSizeNum : Nat
  userId : Option Str
  isAnonymous : Bool
  sessionId : Option Str
deriving DecidableEq

/-- The `switch (precio)` table of the `search` controller, mapping a price-range
label to `(precio_min, precio_max)`. -/
def precioRange : Option Str → Option Int × Option Int
  | none => (none, none)
  | some p =>
    if p = "hasta 5000".toList then (none, some 5000)
    else if p = "entre 5000 - 10000".toList then (some 5000, some 10000)
    else if p = "entre 10000 - 25000".toList then (some 10000, some 25000)
    else if p = "entre 25000 - 50000".toList then (some 25000, some 50000)
    else if p = "entre 50000 - 100000".toList then (some 50000, some 100000)
    else if p = "entre 100000 - 300000".toList then (some 100000, some 300000)
    else if p = "entre 300000 - 500000".toList then (some 300000, some 500000)
    else if p = "mas de 500000".toList then (some 500000, none)
    else (none, none)

/-- The `FilterOptions` value the `search` controller passes to
`productsService.searchAndFilterProducts`. -/
def reqToFilterOptions (req : SearchRequest) : FilterOptions :=
  ⟨req.busqueda, (precioRange req.precio).1, (precioRange req.precio).2,
    req.categoria, req.condicion, req.ordenar, req.pageNum, req.pageSizeNum⟩

/-- HTTP outcome of the `search` controller: `res.json(response)` (with the
`sessionId` echoed for anonymous sessions) or the `catch`-block's
`res.status(500).json(...)`. -/
inductive SearchResponse where
  | ok (body : PaginatedResponse) (sessionId : Option Str)
  | serverError
deriving DecidableEq

/-- The `search` controller of `searchController.ts`, given the product collection
`todos` (upstream fetch succeeded), the wall clock `now`, and one failure flag per
store append (`SearchQuery.create` inside `saveSearchQuery`, and
`searchHistory.save()` inside `saveSearchHistory`).  Both appends are `await`ed
inside the controller's single `try` block, so a rejection lands in the `catch`
and produces the 500 response.  Returns the HTTP outcome together with the
`search_queries` and `search_history` documents created by the request (the Mongo
`_id` of a new history document is server-generated and modelled as `[]`). -/
def searchController (todos : List ProductoNormalizado) (req : SearchRequest) (now : Int)
    (queryStoreFail histStoreFail : Bool) :
    SearchResponse × List SearchQueryRecord × List SearchHistoryRecord :=
  let result := searchAndFilterProducts todos (reqToFilterOptions req)
  let hasSearchText := !(trimStr req.busqueda).isEmpty
  let okResponse := SearchResponse.ok result
    (if req.isAnonymous && req.sessionId.isSome then req.sessionId else none)
  if hasSearchText then
    if queryStoreFail then (SearchResponse.serverError, [], [])
    else
      let queryWrites : List SearchQueryRecord := [⟨trimStr req.busqueda, now⟩]
      if req.userId.isSome && !result.productos.isEmpty then
        if histStoreFail then (SearchResponse.serverError, queryWrites, [])
        else
          (okResponse, queryWrites,
            [⟨[], req.userId.getD [], req.busqueda, now,
              result.productos.map fun p => p.id_producto⟩])
      else (okResponse, queryWrites, [])
  else (okResponse, [], [])

/-! ## analyticsService.ts : AnalyticsAggregator -/

/-- The shape of one entry of the `allClicks` export: the projection
`.select('id_producto nombre fecha')` of a click document. -/
structure ClickView where
  id_producto : Str
  nombre : Str
  fecha : Int
deriving DecidableEq

/-- The projection applied by `Click.find().select('id_producto nombre fecha')`. -/
def clickView (c : ClickRecord) : ClickView := ⟨c.id_producto, c.nombre, c.fecha⟩

/-- A click document with its `userId` removed (owner erasure). -/
def eraseOwner (c : ClickRecord) : ClickRecord := ⟨c.id_producto, c.nombre, c.fecha, none⟩

/-- `AnalyticsService.getAllClicks` on the real collection (the
`USE_DUMMY_ANALYTICS` fixture branch sources static fixture data instead of the
store and is out of scope): `Click.find().select('id_producto nombre fecha')
.sort({fecha: -1})`. -/
def getAllClicks (clicks : List ClickRecord) : List ClickView :=
  (clicks.map clickView).insertionSort fun a b => b.fecha ≤ a.fecha

/-- One group produced by the `$group` stage of
`AnalyticsService.getPopularProducts`: `_id = id_producto`,
`clickCount = $sum 1`, `lastClick = $max fecha`, `nombre = $first nombre`. -/
structure ClickAgg where
  id_producto : Str
  clickCount : Nat
  lastClick : Int
  nombre : Str
deriving DecidableEq

/-- Distinct `id_producto` keys of a click list, in first-occurrence order. -/
def clickProductKeys : List ClickRecord → List Str
  | [] => []
  | c :: rest => c.id_producto :: (clickProductKeys rest).filter fun k => decide (k ≠ c.id_producto)

/-- `$sum: 1` for one group key: the number of clicks on that product. -/
def countClicksFor (clicks : List ClickRecord) (k : Str) : Nat :=
  (clicks.filter fun c => decide (c.id_producto = k)).length

/-- `$max: '$fecha'` for one group key. -/
def lastClickFor (clicks : List ClickRecord) (k : Str) : Int :=
  (((clicks.filter fun c => decide (c.id_producto = k)).map fun c => c.fecha).max?).getD 0

/-- `$first: '$nombre'` for one group key. -/
def firstNombreFor (clicks : List ClickRecord) (k : Str) : Str :=
  ((clicks.find? fun c => decide (c.id_producto = k)).map fun c => c.nombre).getD []

/-- The `$group` stage: one aggregate per distinct product id. -/
def groupClicksByProduct (clicks : List ClickRecord) : List ClickAgg :=
  (clickProductKeys clicks).map fun k =>
    ⟨k, countClicksFor clicks k, lastClickFor clicks k, firstNombreFor clicks k⟩

/-- One entry returned by `AnalyticsService.getPopularProducts`: the aggregate
joined with the catalog product (`producto: producto || null`). -/
structure TopProductEntry where
  id_producto : Str
  nombre : Str
  clickCount : Nat
  lastClick : Int
  producto : Option ProductoNormalizado
deriving DecidableEq

/-- `AnalyticsService.getPopularProducts` on the real collection with the products
API reachable: `$match` valid ids, `$group` by product, `$sort {clickCount: -1}`,
`$limit limit`, then join each entry against
`(await productsService.searchAndFilterProducts({})).productos` by `id_producto`,
keeping unmatched entries with `producto = null`. -/
def getPopularProducts (todos : List ProductoNormalizado) (clicks : List ClickRecord)
    (limit : Nat) : List TopProductEntry :=
  let validClicks := clicks.filter fun c => decide (c.id_producto ≠ [])
  let topClicks :=
    (((groupClicksByProduct validClicks).insertionSort
        fun a b => b.clickCount ≤ a.clickCount).take limit)
  let productosCompletos := (searchAndFilterProducts todos defaultFilterOptions).productos
  topClicks.map fun item =>
    ⟨item.id_producto, item.nombre, item.clickCount, item.lastClick,
      productosCompletos.find? fun p => decide (p.id_producto = item.id_producto)⟩

/-- `getTopProducts` controller clamp: `Math.min(Math.max(limit, 1), 20)`
(default `limit = 6` when the query parameter is absent). -/
def boundedLimit (limit : Int) : Nat := (min (max limit 1) 20).toNat

/-! ## searchService.ts deleteSearchHistory + its controller -/

/-- `SearchHistory.deleteOne({_id: searchId, userId})`: remove the first document
matching both the id and the owner; returns the new collection and
`deletedCount`. -/
def deleteOneHistory : List SearchHistoryRecord → Str → Str → List SearchHistoryRecord × Nat
  | [], _, _ => ([], 0)
  | r :: rest, sid, uid =>
    if r.id = sid ∧ r.userId = uid then (rest, 1)
    else
      let res := deleteOneHistory rest sid uid
      (r :: res.1, res.2)

/-- `SearchService.deleteSearchHistory`: `deletedCount > 0`. -/
def deleteSearchHistory (store : List SearchHistoryRecord) (searchId userId : Str) :
    List SearchHistoryRecord × Bool :=
  let res := deleteOneHistory store searchId userId
  (res.1, decide (0 < res.2))

/-- HTTP outcomes of the `deleteSearchHistory` controller. -/
inductive DeleteResponse where
  | ok
  | notFound
  | unauthorized
  | badRequest
deriving DecidableEq

/-- The `deleteSearchHistory` controller of `searchController.ts`: 400 without an
id, 401 without a resolved `req.userId`, 404 when the service reports nothing
deleted, 200 otherwise.  Returns the response with the history collection after
the request. -/
def deleteSearchHistoryController (store : List SearchHistoryRecord)
    (id : Option Str) (userId : Option Str) : DeleteResponse × List SearchHistoryRecord :=
  match id with
  | none => (DeleteResponse.badRequest, store)
  | some sid =>
    match userId with
    | none => (DeleteResponse.unauthorized, store)
    | some uid =>
      let res := deleteSearchHistory store sid uid
      if res.2 then (DeleteResponse.ok, res.1) else (DeleteResponse.notFound, res.1)

/-! ## Concrete sample data for witnesses, counterexamples and spec scenarios -/

/-- Sample catalog entry (id_producto `A`). -/
def prodLaptop : ProductoNormalizado :=
  ⟨"1".toList, "A".toList, "Laptop gamer".toList, "una laptop potente".toList,
    1000, "Electronica".toList, "nuevo".toList, 3, "HP".toList⟩

/-- Sample catalog entry (id_producto `B`). -/
def prodMouse : ProductoNormalizado :=
  ⟨"2".toList, "B".toList, "Mouse optico".toList, "mouse gamer".toList,
    500, "Electronica".toList, "usado".toList, 5, "Logi".toList⟩

/-- Sample catalog entry (id_producto `C`). -/
def prodSilla : ProductoNormalizado :=
  ⟨"3".toList, "C".toList, "Silla ergonomica".toList, "silla de oficina".toList,
    800, "Hogar".toList, "nuevo".toList, 2, "Ergo".toList⟩

/-- The click log of the spec scenario: three clicks on `A`, one on `B`, one more
on `A`. -/
def clicksScenario : List ClickRecord :=
  [⟨"A".toList, "Laptop gamer".toList, 1, none⟩,
    ⟨"A".toList, "Laptop gamer".toList, 2, some "u1".toList⟩,
    ⟨"A".toList, "Laptop gamer".toList, 3, none⟩,
    ⟨"B".toList, "Mouse optico".toList, 4, none⟩,
    ⟨"A".toList, "Laptop gamer".toList, 5, some "u2".toList⟩]

/-- A search request with non-empty query text from an authenticated user. -/
def reqLaptop : SearchRequest :=
  ⟨"laptop".toList, none, none, none, none, 1, 20, some "u1".toList, false, none⟩

/-- A search request with empty query text and only the category filter set, from
an anonymous session. -/
def reqFilterOnly : SearchRequest :=
  ⟨[], none, some "Electronica".toList, none, none, 1, 20,
    some (getAnonymousUserId "s1".toList), true, some "s1".toList⟩

/-! ## Helper lemmas -/

lemma lookupSession_refresh_self (reg : SessionRegistry) (sid : Str) (now : Int) :
    lookupSession
        (reg.map fun p => if p.1 = sid then (p.1, { p.2 with lastActivity := now }) else p) sid
      = (lookupSession reg sid).map fun i => { i with lastActivity := now } := by
  induction reg with
  | nil => rfl
  | cons hd tl ih =>
    obtain ⟨k, v⟩ := hd
    rw [List.map_cons]
    by_cases hk : k = sid
    · subst hk
      rw [if_pos (show (k, v).1 = k from rfl)]
      simp [lookupSession]
    · rw [if_neg (show ¬((k, v).1 = sid) from hk)]
      simp [lookupSession, hk, ih]

lemma lookupSession_refresh_other (reg : SessionRegistry) (sid : Str) (now : Int)
    (sid' : Str) (h : sid' ≠ sid) :
    lookupSession
        (reg.map fun p => if p.1 = sid then (p.1, { p.2 with lastActivity := now }) else p) sid'
      = lookupSession reg sid' := by
  induction reg with
  | nil => rfl
  | cons hd tl ih =>
    obtain ⟨k, v⟩ := hd
    rw [List.map_cons]
    by_cases hk : k = sid
    · subst hk
      rw [if_pos (show (k, v).1 = k from rfl)]
      simp [lookupSession, Ne.symm h, ih]
    · rw [if_neg (show ¬((k, v).1 = sid) from hk)]
      simp [lookupSession, hk, ih]

lemma lookupSession_append_self (reg : SessionRegistry) (sid : Str) (info : SessionInfo)
    (h : lookupSession reg sid = none) :
    lookupSession (reg ++ [(sid, info)]) sid = some info := by
  induction reg with
  | nil => simp [lookupSession]
  | cons hd tl ih =>
    obtain ⟨k, v⟩ := hd
    by_cases hk : k = sid
    · subst hk
      simp [lookupSession] at h
    · simp only [lookupSession, hk] at h
      simp [lookupSession, hk, ih h]

lemma lookupSession_append_other (reg : SessionRegistry) (sid : Str) (info : SessionInfo)
    (sid' : Str) (h : sid ≠ sid') :
    lookupSession (reg ++ [(sid, info)]) sid' = lookupSession reg sid' := by
  induction reg with
  | nil => simp [lookupSession, h]
  | cons hd tl ih =>
    obtain ⟨k, v⟩ := hd
    by_cases hk : k = sid'
    · subst hk
      simp [lookupSession]
    · simp [lookupSession, hk, ih]

/-! ## Claims about the session registry -/

/-- Claim C6: `isSessionActive(sessionId)` returns true iff a session entry exists
and `now - lastActivity < 12 hours`; and a run of `cleanupExpiredSessions` collects
for cascade-and-removal exactly those registered sessions with
`now - lastActivity >= 12 hours` at scan time. -/
theorem C6_isActive_and_sweep_scan (reg : SessionRegistry) (now : Int) :
    (∀ sid, isSessionActive reg now sid = true
        ↔ ∃ info, lookupSession reg sid = some info
            ∧ now - info.lastActivity < SESSION_TIMEOUT)
    ∧ (∀ sid, sid ∈ collectExpiredSessions reg now
        ↔ ∃ info, (sid, info) ∈ reg ∧ SESSION_TIMEOUT ≤ now - info.lastActivity) := by
  constructor
  · intro sid
    cases h : lookupSession reg sid with
    | none => simp [isSessionActive, h]
    | some s => simp [isSessionActive, h]
  · intro sid
    constructor
    · intro h
      obtain ⟨p, hp, rfl⟩ := List.mem_map.mp h
      obtain ⟨hmem, hdec⟩ := List.mem_filter.mp hp
      exact ⟨p.2, by simpa using hmem, by simpa using hdec⟩
    · rintro ⟨info, hmem, h⟩
      exact List.mem_map.mpr
        ⟨(sid, info), List.mem_filter.mpr ⟨hmem, by simpa using h⟩, rfl⟩

/-- Claim C10: for a sessionId already present, `registerSession` only refreshes
that entry's `lastActivity` (its `sessionId` and `createdAt` are unchanged, the
key sequence of the registry is unchanged, and every other id resolves as
before); for an absent sessionId it appends a fresh entry whose `createdAt`
equals its `lastActivity`. -/
theorem C10_registerSession_frame (reg : SessionRegistry) (sid : Str) (now : Int) :
    (∀ info, lookupSession reg sid = some info →
      lookupSession (registerSession sid now reg) sid
          = some ⟨info.sessionId, info.createdAt, now⟩
        ∧ (∀ sid', sid' ≠ sid →
            lookupSession (registerSession sid now reg) sid' = lookupSession reg sid')
        ∧ (registerSession sid now reg).map Prod.fst = reg.map Prod.fst)
    ∧ (lookupSession reg sid = none →
      registerSession sid now reg = reg ++ [(sid, ⟨sid, now, now⟩)]
        ∧ lookupSession (registerSession sid now reg) sid = some ⟨sid, now, now⟩
        ∧ (∀ sid', sid' ≠ sid →
            lookupSession (registerSession sid now reg) sid' = lookupSession reg sid')) := by
  constructor
  · intro info hinfo
    have hsome : (lookupSession reg sid).isSome = true := by simp [hinfo]
    refine ⟨?_, ?_, ?_⟩
    · rw [registerSession, if_pos hsome, lookupSession_refresh_self, hinfo]
      rfl
    · intro sid' hne
      rw [registerSession, if_pos hsome, lookupSession_refresh_other _ _ _ _ hne]
    · rw [registerSession, if_pos hsome, List.map_map]
      refine List.map_congr_left fun p _ => ?_
      by_cases hp : p.1 = sid <;> simp [hp]
  · intro hnone
    have hsome : ¬((lookupSession reg sid).isSome = true) := by simp [hnone]
    refine ⟨by rw [registerSession, if_neg hsome], ?_, ?_⟩
    · rw [registerSession, if_neg hsome]
      exact lookupSession_append_self reg sid _ hnone
    · intro sid' hne
      rw [registerSession, if_neg hsome]
      exact lookupSession_append_other reg sid _ sid' (Ne.symm hne)

/-- Witness for C10 at a concrete registry. -/
theorem C10_registerSession_frame_witness :
    lookupSession [(['a'], ⟨['a'], 3, 4⟩)] ['a'] = some ⟨['a'], 3, 4⟩
    ∧ lookupSession (registerSession ['a'] 9 [(['a'], ⟨['a'], 3, 4⟩)]) ['a']
        = some ⟨['a'], 3, 9⟩
    ∧ lookupSession [(['a'], ⟨['a'], 3, 4⟩)] ['b'] = none
    ∧ registerSession ['b'] 9 [(['a'], ⟨['a'], 3, 4⟩)]
        = [(['a'], ⟨['a'], 3, 4⟩), (['b'], ⟨['b'], 9, 9⟩)] :=
  ⟨by decide,
    ((C10_registerSession_frame [(['a'], ⟨['a'], 3, 4⟩)] ['a'] 9).1 ⟨['a'], 3, 4⟩
      (by decide)).1,
    by decide,
    ((C10_registerSession_frame [(['a'], ⟨['a'], 3, 4⟩)] ['b'] 9).2 (by decide)).1⟩

lemma replaceFirst_of_isPrefixOf (u pat : Str) (hne : pat ≠ [])
    (hpre : pat.isPrefixOf u = true) : replaceFirst u pat = u.drop pat.length := by
  cases u with
  | nil =>
    cases pat with
    | nil => exact absurd rfl hne
    | cons c cs => simp [List.isPrefixOf] at hpre
  | cons c rest => simp [replaceFirst, hpre]

/-- Claim C7: for every anonymous owner id `u` (prefixed `anonymous_`),
`getAnonymousUserId (extractSessionId u) = u`; for every owner id not starting
with `anonymous_`, `extractSessionId` returns null. -/
theorem C7_anonymous_id_roundtrip :
    (∀ u : Str, isAnonymousUserId u = true →
      (extractSessionId u).map getAnonymousUserId = some u)
    ∧ (∀ u : Str, isAnonymousUserId u = false → extractSessionId u = none) := by
  constructor
  · intro u h
    have hpre : anonMarker <+: u := List.isPrefixOf_iff_prefix.mp h
    obtain ⟨t, rfl⟩ := hpre
    have hrf : replaceFirst (anonMarker ++ t) anonMarker
        = (anonMarker ++ t).drop anonMarker.length :=
      replaceFirst_of_isPrefixOf _ _ (by decide) h
    simp [extractSessionId, isAnonymousUserId, h, hrf, getAnonymousUserId, List.drop_left]
  · intro u h
    unfold extractSessionId
    rw [if_neg]
    simp [h]

/-- Witness for C7 at a concrete anonymous id and a concrete authenticated id. -/
theorem C7_anonymous_id_roundtrip_witness :
    isAnonymousUserId "anonymous_session_42".toList = true
    ∧ (extractSessionId "anonymous_session_42".toList).map getAnonymousUserId
        = some "anonymous_session_42".toList
    ∧ isAnonymousUserId "user_77".toList = false
    ∧ extractSessionId "user_77".toList = none :=
  ⟨by decide, C7_anonymous_id_roundtrip.1 _ (by decide), by decide,
    C7_anonymous_id_roundtrip.2 _ (by decide)⟩

/-- Claim C8: if a cascade store deletion throws, the error does not propagate out
of `cleanupSessionHistory` (the catch swallows it, so the sweep loop cannot
crash), and the session's registry entry is not removed; the registry entry is
deleted only when both store deletions complete. -/
theorem C8_cascade_failure_retains_session (sid : Str) (histFail clickFail : Bool)
    (st : SysState) :
    (∀ st', cleanupSessionHistoryBody sid histFail clickFail st = Except.error st' →
      cleanupSessionHistory sid histFail clickFail st = st')
    ∧ (histFail = true ∨ clickFail = true →
      (cleanupSessionHistory sid histFail clickFail st).sessions = st.sessions)
    ∧ (histFail = true → cleanupSessionHistory sid histFail clickFail st = st)
    ∧ (histFail = false → clickFail = true →
      cleanupSessionHistory sid histFail clickFail st =
        ⟨st.history.filter fun r => decide (r.userId ≠ getAnonymousUserId sid),
          st.clicks, st.sessions⟩)
    ∧ (histFail = false → clickFail = false →
      cleanupSessionHistory sid histFail clickFail st =
        ⟨st.history.filter fun r => decide (r.userId ≠ getAnonymousUserId sid),
          st.clicks.filter fun c => decide (c.userId ≠ some (getAnonymousUserId sid)),
          st.sessions.filter fun p => decide (p.1 ≠ sid)⟩) := by
  refine ⟨?_, ?_, ?_, ?_, ?_⟩
  · intro st' h
    simp only [cleanupSessionHistory]
    rw [h]
  · intro hor
    cases histFail
    · cases clickFail
      · rcases hor with h | h <;> exact absurd h (by decide)
      · rfl
    · rfl
  · intro h
    cases histFail
    · exact absurd h (by decide)
    · rfl
  · intro h1 h2
    subst h1
    subst h2
    rfl
  · intro h1 h2
    subst h1
    subst h2
    rfl

/-- Witness for C8: a concrete session whose click-store deletion fails keeps its
registry entry; with both deletions succeeding the entry is removed. -/
theorem C8_cascade_failure_retains_session_witness :
    (cleanupSessionHistory ['s']  false true
        ⟨[], [], [(['s'], ⟨['s'], 0, 0⟩)]⟩).sessions = [(['s'], ⟨['s'], 0, 0⟩)]
    ∧ cleanupSessionHistory ['s'] false false ⟨[], [], [(['s'], ⟨['s'], 0, 0⟩)]⟩
        = ⟨[], [], []⟩ := by
  constructor
  · exact (C8_cascade_failure_retains_session ['s'] false true
      ⟨[], [], [(['s'], ⟨['s'], 0, 0⟩)]⟩).2.1 (Or.inr rfl)
  · have h := (C8_cascade_failure_retains_session ['s'] false false
      ⟨[], [], [(['s'], ⟨['s'], 0, 0⟩)]⟩).2.2.2.2 rfl rfl
    rw [h]
    decide

lemma deleteOneHistory_no_match (store : List SearchHistoryRecord) (sid uid : Str)
    (h : ∀ r ∈ store, ¬(r.id = sid ∧ r.userId = uid)) :
    deleteOneHistory store sid uid = (store, 0) := by
  induction store with
  | nil => rfl
  | cons r rest ih =>
    have hr := h r (by simp)
    simp [deleteOneHistory, hr, ih fun r' hr' => h r' (by simp [hr'])]

lemma deleteOneHistory_match (pre post : List SearchHistoryRecord)
    (r : SearchHistoryRecord) (sid uid : Str)
    (hpre : ∀ r' ∈ pre, ¬(r'.id = sid ∧ r'.userId = uid))
    (hid : r.id = sid) (huid : r.userId = uid) :
    deleteOneHistory (pre ++ r :: post) sid uid = (pre ++ post, 1) := by
  induction pre with
  | nil => simp [deleteOneHistory, hid, huid]
  | cons a pre ih =>
    have ha := hpre a (by simp)
    simp [deleteOneHistory, ha, ih fun r' h' => hpre r' (by simp [h'])]

/-- Claim C9: deleting a history record with a caller that does not own it removes
nothing and surfaces as a 404 not-found response, leaving the collection intact;
the controller answers 200 and removes exactly the first matching record when it
exists with the caller as owner, and answers 200 only in that case. -/
theorem C9_delete_history_ownership (store : List SearchHistoryRecord) (sid uid : Str) :
    ((∀ r ∈ store, r.id = sid → r.userId ≠ uid) →
      deleteSearchHistoryController store (some sid) (some uid)
        = (DeleteResponse.notFound, store))
    ∧ (∀ pre r post, store = pre ++ r :: post →
      (∀ r' ∈ pre, ¬(r'.id = sid ∧ r'.userId = uid)) → r.id = sid → r.userId = uid →
      deleteSearchHistoryController store (some sid) (some uid)
        = (DeleteResponse.ok, pre ++ post))
    ∧ (∀ store', deleteSearchHistoryController store (some sid) (some uid)
        = (DeleteResponse.ok, store') →
      ∃ r ∈ store, r.id = sid ∧ r.userId = uid) := by
  refine ⟨?_, ?_, ?_⟩
  · intro h
    have hnm : ∀ r ∈ store, ¬(r.id = sid ∧ r.userId = uid) := by
      intro r hr hc
      exact h r hr hc.1 hc.2
    simp [deleteSearchHistoryController, deleteSearchHistory,
      deleteOneHistory_no_match store sid uid hnm]
  · intro pre r post hst hpre hid huid
    subst hst
    simp [deleteSearchHistoryController, deleteSearchHistory,
      deleteOneHistory_match pre post r sid uid hpre hid huid]
  · intro store' hok
    by_contra hnone
    push_neg at hnone
    have hnm : ∀ r ∈ store, ¬(r.id = sid ∧ r.userId = uid) := by
      intro r hr hc
      exact hnone r hr hc.1 hc.2
    rw [show deleteSearchHistoryController store (some sid) (some uid)
        = (DeleteResponse.notFound, store) by
      simp [deleteSearchHistoryController, deleteSearchHistory,
        deleteOneHistory_no_match store sid uid hnm]] at hok
    simp at hok

/-- Witness for C9: a non-owner delete answers 404 and keeps the record; the
owner's delete answers 200 and removes it. -/
theorem C9_delete_history_ownership_witness :
    deleteSearchHistoryController [⟨['h'], ['a'], ['q'], 0, []⟩] (some ['h']) (some ['b'])
        = (DeleteResponse.notFound, [⟨['h'], ['a'], ['q'], 0, []⟩])
    ∧ deleteSearchHistoryController [⟨['h'], ['a'], ['q'], 0, []⟩] (some ['h']) (some ['a'])
        = (DeleteResponse.ok, []) := by
  constructor
  · exact (C9_delete_history_ownership [⟨['h'], ['a'], ['q'], 0, []⟩] ['h'] ['b']).1
      (by decide)
  · exact (C9_delete_history_ownership [⟨['h'], ['a'], ['q'], 0, []⟩] ['h'] ['a']).2.1
      [] ⟨['h'], ['a'], ['q'], 0, []⟩ [] rfl (by simp) rfl rfl

/-- Claim C4: `searchAndFilterProducts` returns exactly the slice
`[(page-1)*pageSize, page*pageSize)` of the filtered-and-sorted list, with
`total` the filtered list's length, `totalPages = ceil(total / pageSize)`
(stated through the ceiling division `⌈/⌉` and its Galois characterisation), and
`hasMore` iff `page < totalPages`. -/
theorem C4_pagination (todos : List ProductoNormalizado) (f : FilterOptions)
    (_hpage : 1 ≤ f.page) (hps : 1 ≤ f.pageSize) :
    (searchAndFilterProducts todos f).metadata.total
        = (filterAndSortProducts todos f).length
    ∧ (∀ i : Nat, (searchAndFilterProducts todos f).productos[i]? =
        if i < f.pageSize then
          (filterAndSortProducts todos f)[(f.page - 1) * f.pageSize + i]?
        else none)
    ∧ (searchAndFilterProducts todos f).metadata.totalPages
        = (filterAndSortProducts todos f).length ⌈/⌉ f.pageSize
    ∧ (∀ m : Nat, (searchAndFilterProducts todos f).metadata.totalPages ≤ m
        ↔ (filterAndSortProducts todos f).length ≤ f.pageSize * m)
    ∧ ((searchAndFilterProducts todos f).metadata.hasMore = true
        ↔ (searchAndFilterProducts todos f).metadata.page
            < (searchAndFilterProducts todos f).metadata.totalPages) := by
  have hprod : (searchAndFilterProducts todos f).productos
      = ((filterAndSortProducts todos f).drop ((f.page - 1) * f.pageSize)).take f.pageSize :=
    rfl
  have hceil : (searchAndFilterProducts todos f).metadata.totalPages
      = (filterAndSortProducts todos f).length ⌈/⌉ f.pageSize :=
    (Nat.ceilDiv_eq_add_pred_div _ _).symm
  refine ⟨rfl, ?_, hceil, ?_, ?_⟩
  · intro i
    rw [hprod, List.getElem?_take]
    by_cases hi : i < f.pageSize
    · rw [if_pos hi, if_pos hi, List.getElem?_drop]
    · rw [if_neg hi, if_neg hi]
  · intro m
    rw [hceil]
    exact ceilDiv_le_iff_le_mul (Nat.lt_of_lt_of_le Nat.zero_lt_one hps)
  · exact ⟨of_decide_eq_true, decide_eq_true⟩

/-- Witness for C4 at a concrete catalog and page request (page 2, pageSize 2). -/
theorem C4_pagination_witness :
    (searchAndFilterProducts [prodLaptop, prodMouse, prodSilla]
        ⟨[], none, none, none, none, none, 2, 2⟩).metadata.total
      = (filterAndSortProducts [prodLaptop, prodMouse, prodSilla]
        ⟨[], none, none, none, none, none, 2, 2⟩).length
    ∧ (∀ i : Nat, (searchAndFilterProducts [prodLaptop, prodMouse, prodSilla]
        ⟨[], none, none, none, none, none, 2, 2⟩).productos[i]? =
        if i < 2 then
          (filterAndSortProducts [prodLaptop, prodMouse, prodSilla]
            ⟨[], none, none, none, none, none, 2, 2⟩)[(2 - 1) * 2 + i]?
        else none)
    ∧ (searchAndFilterProducts [prodLaptop, prodMouse, prodSilla]
        ⟨[], none, none, none, none, none, 2, 2⟩).metadata.totalPages
      = (filterAndSortProducts [prodLaptop, prodMouse, prodSilla]
        ⟨[], none, none, none, none, none, 2, 2⟩).length ⌈/⌉ 2
    ∧ (∀ m : Nat, (searchAndFilterProducts [prodLaptop, prodMouse, prodSilla]
        ⟨[], none, none, none, none, none, 2, 2⟩).metadata.totalPages ≤ m
        ↔ (filterAndSortProducts [prodLaptop, prodMouse, prodSilla]
          ⟨[], none, none, none, none, none, 2, 2⟩).length ≤ 2 * m)
    ∧ ((searchAndFilterProducts [prodLaptop, prodMouse, prodSilla]
        ⟨[], none, none, none, none, none, 2, 2⟩).metadata.hasMore = true
        ↔ (searchAndFilterProducts [prodLaptop, prodMouse, prodSilla]
          ⟨[], none, none, none, none, none, 2, 2⟩).metadata.page
            < (searchAndFilterProducts [prodLaptop, prodMouse, prodSilla]
              ⟨[], none, none, none, none, none, 2, 2⟩).metadata.totalPages) :=
  C4_pagination [prodLaptop, prodMouse, prodSilla]
    ⟨[], none, none, none, none, none, 2, 2⟩ (by decide) (by decide)

lemma listIsEmptyFalse {α : Type} (l : List α) : l.isEmpty = false ↔ l ≠ [] := by
  cases l <;> simp

lemma searchController_no_fail (todos : List ProductoNormalizado) (req : SearchRequest)
    (now : Int) :
    searchController todos req now false false =
      (SearchResponse.ok (searchAndFilterProducts todos (reqToFilterOptions req))
          (if req.isAnonymous && req.sessionId.isSome then req.sessionId else none),
        if (trimStr req.busqueda).isEmpty then [] else [⟨trimStr req.busqueda, now⟩],
        if !(trimStr req.busqueda).isEmpty
            && (req.userId.isSome
              && !(searchAndFilterProducts todos (reqToFilterOptions req)).productos.isEmpty) then
          [⟨[], req.userId.getD [], req.busqueda, now,
            (searchAndFilterProducts todos (reqToFilterOptions req)).productos.map
              fun p => p.id_producto⟩]
        else []) := by
  cases hb : (trimStr req.busqueda).isEmpty
  · cases hc : req.userId.isSome
        && !(searchAndFilterProducts todos (reqToFilterOptions req)).productos.isEmpty
    · simp [searchController, hb, hc]
    · simp [searchController, hb, hc]
  · simp [searchController, hb]

/-- Claim C5: on a search request (with both store appends succeeding), a
`search_queries` record is created iff the query text is non-blank (the code
tests `busqueda.trim() !== ''`), a `search_history` record is created iff the
text is non-blank AND `req.userId` is resolved AND the result page is non-empty,
and the response carries the computed results; moreover, in the concrete
empty-text, category-filter-only scenario no record of either kind is created
and results are still returned. -/
theorem C5_search_write_conditions (todos : List ProductoNormalizado)
    (req : SearchRequest) (now : Int) :
    ((searchController todos req now false false).2.1 ≠ []
        ↔ (trimStr req.busqueda).isEmpty = false)
    ∧ ((searchController todos req now false false).2.2 ≠ []
        ↔ ((trimStr req.busqueda).isEmpty = false ∧ req.userId.isSome = true
            ∧ (searchAndFilterProducts todos (reqToFilterOptions req)).productos ≠ []))
    ∧ (searchController todos req now false false).1
        = SearchResponse.ok (searchAndFilterProducts todos (reqToFilterOptions req))
            (if req.isAnonymous && req.sessionId.isSome then req.sessionId else none)
    ∧ (searchController [prodLaptop, prodMouse] reqFilterOnly 0 false false).2.1 = []
    ∧ (searchController [prodLaptop, prodMouse] reqFilterOnly 0 false false).2.2 = []
    ∧ (searchController [prodLaptop, prodMouse] reqFilterOnly 0 false false).1
        = SearchResponse.ok
            (searchAndFilterProducts [prodLaptop, prodMouse] (reqToFilterOptions reqFilterOnly))
            (some "s1".toList)
    ∧ (searchAndFilterProducts [prodLaptop, prodMouse]
        (reqToFilterOptions reqFilterOnly)).productos ≠ [] := by
  rw [searchController_no_fail]
  refine ⟨?_, ?_, rfl, by decide, by decide, by decide, by decide⟩
  · cases hb : (trimStr req.busqueda).isEmpty <;> simp [hb]
  · cases hb : (trimStr req.busqueda).isEmpty
    · cases hu : req.userId.isSome
      · cases hp : (searchAndFilterProducts todos (reqToFilterOptions req)).productos.isEmpty
        · simp [hb, hu, hp, (listIsEmptyFalse _).mp hp]
        · simp only [hb, hu, hp]
          simp [List.isEmpty_iff.mp hp]
      · simp [hb, hu]
    · simp [hb]

/-- Claim C2 (amended): a store-append failure inside the search request's single
`try` block fails the surrounding request — the controller's `catch` answers a
500 error and the user does not receive the computed results (a
`saveSearchQuery` failure additionally creates no record at all; a
`saveSearchHistory` failure leaves the already-created query record). -/
theorem C2_store_failure_fails_request (todos : List ProductoNormalizado)
    (req : SearchRequest) (now : Int) :
    ((trimStr req.busqueda).isEmpty = false →
      ∀ histFail, searchController todos req now true histFail
        = (SearchResponse.serverError, [], []))
    ∧ ((trimStr req.busqueda).isEmpty = false → req.userId.isSome = true →
      (searchAndFilterProducts todos (reqToFilterOptions req)).productos ≠ [] →
      searchController todos req now false true
        = (SearchResponse.serverError, [⟨trimStr req.busqueda, now⟩], [])) := by
  constructor
  · intro hb histFail
    simp [searchController, hb]
  · intro hb hu hp
    have hpe : (searchAndFilterProducts todos (reqToFilterOptions req)).productos.isEmpty
        = false := (listIsEmptyFalse _).mpr hp
    simp [searchController, hb, hu, hpe]

/-- Witness for C2 (amended) at a concrete catalog and request. -/
theorem C2_store_failure_fails_request_witness :
    searchController [prodLaptop] reqLaptop 0 true false
        = (SearchResponse.serverError, [], [])
    ∧ searchController [prodLaptop] reqLaptop 0 false true
        = (SearchResponse.serverError, [⟨trimStr reqLaptop.busqueda, 0⟩], []) :=
  ⟨(C2_store_failure_fails_request [prodLaptop] reqLaptop 0).1 (by decide) false,
    (C2_store_failure_fails_request [prodLaptop] reqLaptop 0).2 (by decide) (by decide)
      (by decide)⟩

/-- Counterexample for C2 as stated: for the same request, the no-failure run
returns the computed results, but when the `saveSearchQuery` append fails the
response is the 500 error — the store failure does fail the search request and
the user does not receive the results. -/
theorem C2_counterexample :
    searchController [prodLaptop] reqLaptop 0 true false
        = (SearchResponse.serverError, [], [])
    ∧ (searchController [prodLaptop] reqLaptop 0 false false).1
        = SearchResponse.ok
            (searchAndFilterProducts [prodLaptop] (reqToFilterOptions reqLaptop)) none
    ∧ (searchAndFilterProducts [prodLaptop] (reqToFilterOptions reqLaptop)).productos
        ≠ [] :=
  ⟨by decide, by decide, by decide⟩

/-- Claim C1: the `allClicks` export is insensitive to owner erasure (it cannot
depend on any record's `ownerId`), and every returned entry is exactly the
`{id_producto, nombre, fecha}` projection of a stored click — the `ClickView`
shape has no owner field at all. -/
theorem C1_allClicks_owner_free (clicks : List ClickRecord) :
    getAllClicks (clicks.map eraseOwner) = getAllClicks clicks
    ∧ ∀ v ∈ getAllClicks clicks, ∃ c ∈ clicks, v = clickView c := by
  constructor
  · simp only [getAllClicks, List.map_map]
    rfl
  · intro v hv
    simp only [getAllClicks, List.mem_insertionSort] at hv
    obtain ⟨c, hc, heq⟩ := List.mem_map.mp hv
    exact ⟨c, hc, heq.symm⟩

/-- Witness for C1 at a concrete click log with an owner. -/
theorem C1_allClicks_owner_free_witness :
    getAllClicks ([(⟨"A".toList, "a".toList, 1, some "u".toList⟩ : ClickRecord)].map eraseOwner)
        = getAllClicks [⟨"A".toList, "a".toList, 1, some "u".toList⟩]
    ∧ ∃ c ∈ [(⟨"A".toList, "a".toList, 1, some "u".toList⟩ : ClickRecord)],
        (⟨"A".toList, "a".toList, 1⟩ : ClickView) = clickView c :=
  ⟨(C1_allClicks_owner_free [⟨"A".toList, "a".toList, 1, some "u".toList⟩]).1,
    (C1_allClicks_owner_free [⟨"A".toList, "a".toList, 1, some "u".toList⟩]).2
      ⟨"A".toList, "a".toList, 1⟩ (by decide)⟩

/-- Claim C3 (amended): `getPopularProducts` groups the valid clicks by
`id_producto`, counts them, sorts descending by count, takes the first `limit`
entries (the controller clamps the caller's limit to 1..20, default 6), and
joins each entry against the catalog data by id — but entries whose product
cannot be resolved are kept with `producto = none`, not dropped.  The concrete
spec scenario `{A:3, B:1, A again:1}` aggregates to `{A:4, B:1}` in the order
`[A, B]`. -/
theorem C3_top_products_aggregation (todos : List ProductoNormalizado)
    (clicks : List ClickRecord) (limit : Nat) :
    (getPopularProducts todos clicks limit).length ≤ limit
    ∧ List.Pairwise (fun a b : TopProductEntry => b.clickCount ≤ a.clickCount)
        (getPopularProducts todos clicks limit)
    ∧ (∀ e ∈ getPopularProducts todos clicks limit,
        e.clickCount
            = countClicksFor (clicks.filter fun c => decide (c.id_producto ≠ []))
              e.id_producto
          ∧ e.producto
            = (searchAndFilterProducts todos defaultFilterOptions).productos.find?
                fun p => decide (p.id_producto = e.id_producto))
    ∧ (∀ l : Int, 1 ≤ boundedLimit l ∧ boundedLimit l ≤ 20)
    ∧ getPopularProducts [prodLaptop, prodMouse] clicksScenario 6 =
        [⟨"A".toList, "Laptop gamer".toList, 4, 5, some prodLaptop⟩,
          ⟨"B".toList, "Mouse optico".toList, 1, 4, some prodMouse⟩] := by
  refine ⟨?_, ?_, ?_, ?_, by decide⟩
  · simp only [getPopularProducts]
    rw [List.length_map]
    exact List.length_take_le _ _
  · simp only [getPopularProducts]
    haveI : IsTotal ClickAgg (fun a b => b.clickCount ≤ a.clickCount) :=
      ⟨fun a b => Nat.le_total b.clickCount a.clickCount⟩
    haveI : IsTrans ClickAgg (fun a b => b.clickCount ≤ a.clickCount) :=
      ⟨fun a b c hab hbc => Nat.le_trans hbc hab⟩
    have hs := List.sorted_insertionSort (fun a b : ClickAgg => b.clickCount ≤ a.clickCount)
      (groupClicksByProduct (clicks.filter fun c => decide (c.id_producto ≠ [])))
    exact List.Pairwise.map _ (fun a b h => h)
      (List.Pairwise.sublist (List.take_sublist _ _) hs)
  · intro e he
    simp only [getPopularProducts] at he
    obtain ⟨item, hitem, heq⟩ := List.mem_map.mp he
    have h1 : item ∈ groupClicksByProduct
        (clicks.filter fun c => decide (c.id_producto ≠ [])) :=
      (List.mem_insertionSort _).mp (List.mem_of_mem_take hitem)
    simp only [groupClicksByProduct] at h1
    obtain ⟨k, hk, hkeq⟩ := List.mem_map.mp h1
    subst hkeq
    subst heq
    exact ⟨rfl, rfl⟩
  · intro l
    unfold boundedLimit
    omega

/-- Witness for C3 (amended), instantiating the per-entry clause at the top entry
of the spec scenario. -/
theorem C3_top_products_aggregation_witness :
    (⟨"A".toList, "Laptop gamer".toList, 4, 5, some prodLaptop⟩ : TopProductEntry).clickCount
        = countClicksFor (clicksScenario.filter fun c => decide (c.id_producto ≠ []))
          (⟨"A".toList, "Laptop gamer".toList, 4, 5,
            some prodLaptop⟩ : TopProductEntry).id_producto
    ∧ (⟨"A".toList, "Laptop gamer".toList, 4, 5,
          some prodLaptop⟩ : TopProductEntry).producto
        = (searchAndFilterProducts [prodLaptop, prodMouse]
            defaultFilterOptions).productos.find?
            fun p => decide (p.id_producto
              = (⟨"A".toList, "Laptop gamer".toList, 4, 5,
                  some prodLaptop⟩ : TopProductEntry).id_producto) :=
  (C3_top_products_aggregation [prodLaptop, prodMouse] clicksScenario 6).2.2.1
    ⟨"A".toList, "Laptop gamer".toList, 4, 5, some prodLaptop⟩ (by decide)

/-- Counterexample for C3 as stated: with an empty catalog, the single clicked
product cannot be resolved, yet `getPopularProducts` returns its entry (with
`producto = none`) instead of dropping it. -/
theorem C3_counterexample :
    getPopularProducts [] [⟨"X".toList, "Prod X".toList, 5, none⟩] 6 =
      [⟨"X".toList, "Prod X".toList, 1, 5, none⟩]
    ∧ getPopularProducts [] [⟨"X".toList, "Prod X".toList, 5, none⟩] 6 ≠ [] :=
  ⟨by decide, by decide⟩
